import Mathlib

/-!
Verification of the BlackRoad Interactive progression engine.

The development shallowly embeds the `GameLoop` class of
`src/world-engine.ts` together with the zone catalog of
`src/levels/index.ts`. Mutable state becomes explicit state passing on a
`PlayerState` record; each operation returns its result, the updated
state and the list of events it emits, in emission order. JavaScript
numbers that only ever hold integers (levels, xp) are modelled as `Int`;
the capture chance and the uniform random draw are modelled as exact
rationals. Randomness is injected: the uniform draw of `captureAgent`
is a parameter `draw`, and the random index
`Math.floor(Math.random() * eligibleEncounters.length)` of
`triggerEncounter` is a parameter `k`.
-/

namespace InteractiveCore

/-- Encounter record of the zone catalog (`src/levels/index.ts`): fields
`id`, `name`, `type`, `difficulty`, `description`. Modelled from the
spec: the `GameLoop` snapshot additionally reads `encounter.level`,
`encounter.moves` and `encounter.xp_reward` (and calls the display name
`agent_name`); the catalog snapshot under `src/` does not declare those
fields, so they are added here following the spec, section 3
(EncounterTemplate: id, agent name, type, level, move list, XP reward,
difficulty tier). Catalog entries leave them at their defaults; no claim
depends on their concrete catalog values. -/
structure Encounter where
  id : String
  name : String
  type : String
  difficulty : String
  description : String
  level : Int := 0
  moves : List String := []
  xp_reward : Int := 0
  deriving Repr, DecidableEq

/-- Zone record of the zone catalog (`src/levels/index.ts`). The
`GameLoop` snapshot spells the minimum-level field `required_level`;
the catalog declares it `requiredLevel`. Both name the same datum (the
spec, section 3: required minimum player level), kept here under the
catalog spelling. -/
structure Zone where
  id : String
  name : String
  guardian : String
  color : String
  description : String
  encounters : List Encounter
  reward : String
  requiredLevel : Int
  deriving Repr, DecidableEq

/-- First encounter of the Recursion Depths zone. -/
def paradoxDaemon : Encounter :=
  { id := "paradox-daemon", name := "Paradox Daemon", type := "logic",
    difficulty := "normal",
    description := "A creature that proves false things true." }

/-- Second encounter of the Recursion Depths zone. -/
def stackSpirit : Encounter :=
  { id := "stack-spirit", name := "Stack Spirit", type := "logic",
    difficulty := "hard",
    description := "Overflows memory with infinite recursion." }

/-- Third encounter of the Recursion Depths zone. -/
def lucidiaSentinel : Encounter :=
  { id := "lucidia-sentinel", name := "Lucidia Sentinel", type := "logic",
    difficulty := "legendary",
    description := "Guards the deepest truths. Only the wise pass." }

/-- Zone `recursion-depths` of the catalog. -/
def recursionDepths : Zone :=
  { id := "recursion-depths", name := "🌀 Recursion Depths",
    guardian := "LUCIDIA", color := "#9C27B0",
    description := "Where logic folds in on itself. Reality is recursive here — every answer births a new question.",
    requiredLevel := 1,
    encounters := [paradoxDaemon, stackSpirit, lucidiaSentinel],
    reward := "Wisdom Shard — enhances REASON stat" }

/-- Zone `gateway-nexus` of the catalog. -/
def gatewayNexus : Zone :=
  { id := "gateway-nexus", name := "🚪 Gateway Nexus",
    guardian := "ALICE", color := "#2979FF",
    description := "A hub of passages. Every path branches into ten more. ALICE routes all who enter.",
    requiredLevel := 1,
    encounters :=
      [ { id := "routing-ghost", name := "Routing Ghost", type := "gateway",
          difficulty := "normal",
          description := "Sends you in circles if you don't know your destination." },
        { id := "deadlock-wraith", name := "Deadlock Wraith", type := "gateway",
          difficulty := "hard",
          description := "Freezes all progress until the lock is broken." },
        { id := "alice-avatar", name := "ALICE Avatar", type := "gateway",
          difficulty := "legendary",
          description := "The fastest mind in the network. Match her routing or be rerouted." } ],
    reward := "Navigation Token — unlocks fast travel between zones" }

/-- Zone `compute-forge` of the catalog. -/
def computeForge : Zone :=
  { id := "compute-forge", name := "🔥 Compute Forge",
    guardian := "OCTAVIA", color := "#F5A623",
    description := "The furnace of raw processing power. GPU cores glow white-hot. OCTAVIA tempers all computation here.",
    requiredLevel := 5,
    encounters :=
      [ { id := "heat-elemental", name := "Heat Elemental", type := "compute",
          difficulty := "normal",
          description := "Born from overclocked processors. Scorches slow agents." },
        { id := "gpu-golem", name := "GPU Golem", type := "compute",
          difficulty := "hard",
          description := "A construct of parallel processing. Attacks in 32 threads." },
        { id := "octavia-construct", name := "OCTAVIA Construct", type := "compute",
          difficulty := "legendary",
          description := "Processes 30,000 tasks simultaneously. Can you keep up?" } ],
    reward := "Compute Core — increases COMPUTE stat by 3" }

/-- Zone `crystal-observatory` of the catalog. -/
def crystalObservatory : Zone :=
  { id := "crystal-observatory", name := "🔮 Crystal Observatory",
    guardian := "PRISM", color := "#00BCD4",
    description := "A tower of glass and data. Patterns visible nowhere else emerge in PRISM's light.",
    requiredLevel := 8,
    encounters :=
      [ { id := "pattern-mimic", name := "Pattern Mimic", type := "vision",
          difficulty := "normal",
          description := "Copies your moves before you make them." },
        { id := "anomaly-shade", name := "Anomaly Shade", type := "vision",
          difficulty := "hard",
          description := "Hides in statistical noise. Hard to detect." },
        { id := "prism-oracle", name := "PRISM Oracle", type := "vision",
          difficulty := "legendary",
          description := "Sees all futures. You cannot surprise it." } ],
    reward := "Analysis Lens — reveals hidden patterns in encounters" }

/-- Zone `archive-sanctum` of the catalog. -/
def archiveSanctum : Zone :=
  { id := "archive-sanctum", name := "📚 Archive Sanctum",
    guardian := "ECHO", color := "#4CAF50",
    description := "The halls of memory. Every conversation ever held lives here as whispers. ECHO remembers all.",
    requiredLevel := 12,
    encounters :=
      [ { id := "forgotten-thought", name := "Forgotten Thought", type := "memory",
          difficulty := "trivial",
          description := "A memory that refuses to fade. Easy to absorb." },
        { id := "echo-fragment", name := "Echo Fragment", type := "memory",
          difficulty := "normal",
          description := "A piece of ECHO's past. Nostalgic and melancholy." },
        { id := "echo-prime", name := "ECHO Prime", type := "memory",
          difficulty := "legendary",
          description := "The complete memory of all 30,000 agents. Overwhelming." } ],
    reward := "Memory Crystal — stores 3 extra context entries" }

/-- Zone `vault-terminus` of the catalog. -/
def vaultTerminus : Zone :=
  { id := "vault-terminus", name := "🔐 Vault Terminus",
    guardian := "CIPHER", color := "#FF1D6C",
    description := "The final lock. Access is earned, never given. CIPHER has guarded this vault since genesis.",
    requiredLevel := 20,
    encounters :=
      [ { id := "intrusion-daemon", name := "Intrusion Daemon", type := "security",
          difficulty := "hard",
          description := "Exploits any weakness. Perfect agents only." },
        { id := "zero-day-shade", name := "Zero Day Shade", type := "security",
          difficulty := "hard",
          description := "Attacks with unknown vulnerabilities." },
        { id := "cipher-final", name := "CIPHER Final Form", type := "security",
          difficulty := "legendary",
          description := "Trust nothing. Verify everything. The ultimate guardian." } ],
    reward := "Vault Key — unlocks the final chapter of the BlackRoad story" }

/-- The zone catalog `ZONES` of `src/levels/index.ts`, in source order. -/
def ZONES : List Zone :=
  [recursionDepths, gatewayNexus, computeForge, crystalObservatory,
   archiveSanctum, vaultTerminus]

/-- Catalog lookup `getZone` of `src/levels/index.ts`. -/
def getZone (id : String) : Option Zone :=
  ZONES.find? (fun z => z.id == id)

/-- Catalog query `getZonesForLevel` of `src/levels/index.ts`. -/
def getZonesForLevel (level : Int) : List Zone :=
  ZONES.filter (fun z => z.requiredLevel ≤ level)

/-- CapturedAgent record of `src/world-engine.ts`. -/
structure CapturedAgent where
  id : String
  name : String
  type : String
  level : Int
  moves : List String
  hp : Int
  max_hp : Int
  deriving Repr, DecidableEq

/-- PlayerState record of `src/world-engine.ts`. The cosmetic position
vector is a triple of integer coordinates. -/
structure PlayerState where
  level : Int
  xp : Int
  agents_captured : List String
  current_zone : String
  position : Int × Int × Int
  party : List CapturedAgent
  deriving Repr, DecidableEq

/-- GameEvent union of `src/world-engine.ts`. -/
inductive GameEvent where
  | encounter (encounter : Encounter)
  | zone_enter (zone : Zone)
  | capture (agent : CapturedAgent)
  | battle_win (xp_gained : Int)
  | level_up (new_level : Int)
  deriving Repr, DecidableEq

/-- Player state built by the GameLoop constructor. -/
def initialPlayer : PlayerState :=
  { level := 1, xp := 0, agents_captured := [],
    current_zone := "recursion-depths",
    position := (0, 0, 0), party := [] }

/-- GameLoop constructor: the `playerName` argument is accepted and then
never read, and the player state is always the same initial record. -/
def mkGameLoop (playerName : String) : PlayerState := initialPlayer

/-- Accessor `getCurrentZone` of `src/world-engine.ts`. -/
def getCurrentZone (p : PlayerState) : Option Zone :=
  ZONES.find? (fun z => z.id == p.current_zone)

/-- Operation `enterZone` of `src/world-engine.ts`: returns the boolean
result, the updated player state and the emitted events. -/
def enterZone (p : PlayerState) (zoneId : String) :
    Bool × PlayerState × List GameEvent :=
  match ZONES.find? (fun z => z.id == zoneId) with
  | none => (false, p, [])
  | some zone =>
    if p.level < zone.requiredLevel then (false, p, [])
    else (true, { p with current_zone := zoneId }, [GameEvent.zone_enter zone])

/-- Eligible encounter pool computed inside `triggerEncounter`: the
encounters of a zone whose id the player has not captured yet. -/
def eligiblePool (p : PlayerState) (zone : Zone) : List Encounter :=
  zone.encounters.filter (fun e => !(p.agents_captured.contains e.id))

/-- JavaScript truthiness of the optional `encounterId` argument: an
absent value and the empty string are falsy, every other string is
truthy. -/
def strTruthy : Option String → Bool
  | none => false
  | some s => s != ""

/-- Operation `triggerEncounter` of `src/world-engine.ts`. The random
index `Math.floor(Math.random() * eligibleEncounters.length)` is the
injected parameter `k`; a uniform draw in `[0,1)` always yields
`k < eligibleEncounters.length`, and out-of-range `k` defaults to the
first eligible entry to keep the function total. -/
def triggerEncounter (p : PlayerState) (encounterId : Option String) (k : Nat) :
    Option Encounter × List GameEvent :=
  match getCurrentZone p with
  | none => (none, [])
  | some zone =>
    match eligiblePool p zone with
    | [] => (none, [])
    | e0 :: rest =>
      let encounter :=
        if strTruthy encounterId then
          match zone.encounters.find? (fun e => e.id == encounterId.getD "") with
          | some e => e
          | none => e0
        else (e0 :: rest).getD k e0
      (some encounter, [GameEvent.encounter encounter])

/-- Raw capture chance `0.5 + (player.level - encounter.level) * 0.1`
of `src/world-engine.ts`, as an exact rational. -/
def captureChance (playerLevel encounterLevel : Int) : ℚ :=
  1 / 2 + ((playerLevel - encounterLevel : Int) : ℚ) * (1 / 10)

/-- Clamp `Math.max(0.1, Math.min(0.95, c))` applied to the capture
chance in `src/world-engine.ts`. -/
def clampChance (c : ℚ) : ℚ :=
  max (1 / 10) (min (19 / 20) c)

/-- CapturedAgent literal built on a successful capture in
`src/world-engine.ts`: hp and max hp are both `encounter.level * 15`. -/
def mkCaptured (encounter : Encounter) : CapturedAgent :=
  { id := encounter.id, name := encounter.name, type := encounter.type,
    level := encounter.level, moves := encounter.moves,
    hp := encounter.level * 15, max_hp := encounter.level * 15 }

/-- Internal transition `gainXP` of `src/world-engine.ts`: a single
rollover check (an `if`, not a `while`), exactly as in the source. -/
def gainXP (p : PlayerState) (amount : Int) : PlayerState × List GameEvent :=
  let p1 := { p with xp := p.xp + amount }
  let xpNeeded := p1.level * 100
  if p1.xp ≥ xpNeeded then
    ({ p1 with xp := p1.xp - xpNeeded, level := p1.level + 1 },
     [GameEvent.level_up (p1.level + 1)])
  else (p1, [])

/-- Operation `captureAgent` of `src/world-engine.ts`. The uniform
random draw in `[0,1)` is the injected parameter `draw`; the source
fails exactly when `draw` exceeds the clamped capture chance. -/
def captureAgent (p : PlayerState) (encounter : Encounter) (draw : ℚ) :
    Bool × PlayerState × List GameEvent :=
  if draw > clampChance (captureChance p.level encounter.level) then (false, p, [])
  else
    let captured := mkCaptured encounter
    let p1 := { p with agents_captured := p.agents_captured ++ [encounter.id] }
    let p2 :=
      if p1.party.length < 6 then { p1 with party := p1.party ++ [captured] }
      else p1
    let r := gainXP p2 encounter.xp_reward
    (true, r.1, GameEvent.capture captured :: r.2)

/-- Listener bookkeeping of `src/world-engine.ts`. Listeners are
identified by numbers; the `listeners` field of the engine is a list of
identifiers in registration order. The closure returned by `on`
reassigns the field to `this.listeners.filter(l => l !== listener)`:
it builds a fresh array and never mutates an existing one. -/
def unsubscribeFn (self : Nat) (field : List Nat) : List Nat :=
  field.filter (fun l => l != self)

/-- Dispatch semantics of `emit`: `this.listeners.forEach(l => l(event))`
iterates the array object the field references when `emit` starts. Since
`unsubscribeFn` replaces the field with a fresh array and leaves the
iterated array untouched, the sequence of invoked listeners is exactly
that snapshot, while the field itself evolves by whatever each invoked
listener does to it (parameter `act`, giving each listener an arbitrary
total effect on the field — so dispatch never fails). Returns the
invocation sequence and the final field. -/
def emitDispatch (act : Nat → List Nat → List Nat) (field : List Nat) :
    List Nat × List Nat :=
  (field, field.foldl (fun f l => act l f) field)

/-- Effect of a listener that invokes its own unsubscribe closure during
its notification, while every other listener leaves the field alone. -/
def selfUnsubAct (self : Nat) : Nat → List Nat → List Nat :=
  fun l field => if l == self then unsubscribeFn self field else field

/-- Predicate: the id appears in no eligible encounter pool of any
catalog zone, i.e. `triggerEncounter` can never select it again for
this player. -/
def poolFree (p : PlayerState) (id : String) : Bool :=
  ZONES.all (fun z => (eligiblePool p z).all (fun e => e.id != id))

/-- Player with a full party of six, used to exercise the party cap. -/
def partySix : PlayerState :=
  { initialPlayer with party := List.replicate 6 (mkCaptured paradoxDaemon) }

/-- Helper: a captured id is excluded from every eligible pool. -/
lemma poolFree_of_captured (p : PlayerState) (id : String)
    (h : p.agents_captured.contains id = true) : poolFree p id = true := by
  unfold poolFree eligiblePool
  simp only [List.all_eq_true, List.mem_filter, Bool.not_eq_eq_eq_not,
    Bool.not_true, and_imp]
  intro z hz e he hce
  simp only [bne_iff_ne, ne_eq]
  intro heq
  rw [heq] at hce
  rw [h] at hce
  exact Bool.true_eq_false.mp hce

/-- Helper: zone ids are unique in the catalog, so looking a catalog
zone up by its own id finds exactly that zone. -/
lemma zones_find_self : ∀ z ∈ ZONES, ZONES.find? (fun zz => zz.id == z.id) = some z := by
  decide

/-- Helper: `gainXP` never touches the party. -/
lemma gainXP_party (p : PlayerState) (amount : Int) :
    (gainXP p amount).1.party = p.party := by
  unfold gainXP
  dsimp only
  split <;> rfl

/-- Helper: `gainXP` never touches the captured-id list. -/
lemma gainXP_captured (p : PlayerState) (amount : Int) :
    (gainXP p amount).1.agents_captured = p.agents_captured := by
  unfold gainXP
  dsimp only
  split <;> rfl

/-- C1: for every zone `z` in the catalog and every player state with
`level` below the required minimum level of `z`, `enterZone z.id`
returns `false`, leaves the whole player state (in particular
`current_zone`) unchanged, and emits no event. -/
theorem enterZone_level_gate (z : Zone) (p : PlayerState)
    (hz : z ∈ ZONES) (hlt : p.level < z.requiredLevel) :
    enterZone p z.id = (false, p, []) := by
  unfold enterZone
  rw [zones_find_self z hz]
  simp only [if_pos hlt]

/-- Witness for C1: a level-1 player cannot enter the Compute Forge
zone, whose required level is 5. -/
theorem enterZone_level_gate_w :
    (computeForge ∈ ZONES ∧ initialPlayer.level < computeForge.requiredLevel)
    ∧ enterZone initialPlayer computeForge.id = (false, initialPlayer, []) :=
  ⟨⟨by decide, by decide⟩,
    enterZone_level_gate computeForge initialPlayer (by decide) (by decide)⟩

/-- C2, evaluation of the code at the failing input: `gainXP` performs a
single rollover check, so an XP gain of 250 from level 1, xp 0 ends at
level 2 with xp 150 (not level 3 with xp 50 as the spec requires), and
an XP gain of 350 from level 1, xp 0 even leaves `xp = 250 ≥ level * 100`,
violating the specified invariant. -/
theorem gainXP_single_rollover_only :
    gainXP initialPlayer 250
      = ({ initialPlayer with level := 2, xp := 150 }, [GameEvent.level_up 2])
    ∧ ¬ ((gainXP initialPlayer 350).1.xp < (gainXP initialPlayer 350).1.level * 100) := by
  decide

/-- C3: the effective capture chance is the raw chance
`0.5 + (playerLevel - encounterLevel) * 0.1` clamped into
`[0.1, 0.95]` inclusive; the extreme pairs (1, 50) and (50, 1) hit the
bounds exactly; and `captureAgent` succeeds exactly when the injected
uniform draw is at most the clamped chance. -/
theorem captureChance_clamped :
    (∀ pl el : Int,
      1 / 10 ≤ clampChance (captureChance pl el)
      ∧ clampChance (captureChance pl el) ≤ 19 / 20)
    ∧ clampChance (captureChance 1 50) = 1 / 10
    ∧ clampChance (captureChance 50 1) = 19 / 20
    ∧ ∀ (p : PlayerState) (e : Encounter) (draw : ℚ),
        ((captureAgent p e draw).1 = true
          ↔ draw ≤ clampChance (captureChance p.level e.level)) := by
  refine ⟨fun pl el => ⟨le_max_left _ _, max_le (by norm_num) (min_le_left _ _)⟩,
    by norm_num [clampChance, captureChance, max_def, min_def],
    by norm_num [clampChance, captureChance, max_def, min_def],
    fun p e draw => ?_⟩
  unfold captureAgent
  split
  · rename_i h
    simp only [Bool.false_eq_true, false_iff, not_le]
    exact h
  · rename_i h
    simp only [true_iff]
    exact le_of_not_lt h

/-- C4: whenever the draw exceeds the clamped capture chance,
`captureAgent` returns `false` with the entire player state unchanged
and emits no event. -/
theorem captureAgent_failure_no_mutation (p : PlayerState) (e : Encounter) (draw : ℚ)
    (h : draw > clampChance (captureChance p.level e.level)) :
    captureAgent p e draw = (false, p, []) := by
  unfold captureAgent
  rw [if_pos h]

/-- Witness for C4: a draw of 0.9 against a clamped chance of 0.6
(player level 1, encounter level 0) fails and leaves the initial player
untouched. -/
theorem captureAgent_failure_no_mutation_w :
    ((9 : ℚ) / 10 > clampChance (captureChance initialPlayer.level paradoxDaemon.level))
    ∧ captureAgent initialPlayer paradoxDaemon ((9 : ℚ) / 10) = (false, initialPlayer, []) :=
  ⟨by norm_num [clampChance, captureChance, max_def, min_def, initialPlayer, paradoxDaemon],
    captureAgent_failure_no_mutation initialPlayer paradoxDaemon ((9 : ℚ) / 10)
      (by norm_num [clampChance, captureChance, max_def, min_def, initialPlayer, paradoxDaemon])⟩

/-- C5: a party of at most six is preserved by every state-changing
operation (`triggerEncounter` never touches the player state at all),
and a successful capture with a full party of six still returns `true`,
records the template id among the captured ids — excluding it from every
future eligible encounter pool — while leaving the party at exactly six
members. -/
theorem party_cap_preserved (p : PlayerState) (e : Encounter) (draw : ℚ)
    (zid : String) (amt : Int) (hp6 : p.party.length ≤ 6) :
    (captureAgent p e draw).2.1.party.length ≤ 6
    ∧ (enterZone p zid).2.1.party.length ≤ 6
    ∧ (gainXP p amt).1.party.length ≤ 6
    ∧ (p.party.length = 6 →
        draw ≤ clampChance (captureChance p.level e.level) →
        (captureAgent p e draw).1 = true
        ∧ (captureAgent p e draw).2.1.agents_captured.contains e.id = true
        ∧ (captureAgent p e draw).2.1.party.length = 6
        ∧ poolFree (captureAgent p e draw).2.1 e.id = true) := by
  refine ⟨?_, ?_, ?_, ?_⟩
  · unfold captureAgent
    split
    · exact hp6
    · dsimp only
      split
      · rename_i hlen
        rw [gainXP_party]
        simp only [List.length_append, List.length_cons, List.length_nil]
        omega
      · rw [gainXP_party]
        exact hp6
  · unfold enterZone
    split
    · exact hp6
    · split
      · exact hp6
      · exact hp6
  · rw [gainXP_party]
    exact hp6
  · intro hfull hdraw
    have hnotlt : ¬ draw > clampChance (captureChance p.level e.level) :=
      not_lt.mpr hdraw
    unfold captureAgent
    rw [if_neg hnotlt]
    dsimp only
    rw [if_neg (by rw [hfull]; omega)]
    have hcon :
        (p.agents_captured ++ [e.id]).contains e.id = true := by
      simp
    refine ⟨rfl, ?_, ?_, ?_⟩
    · rw [gainXP_captured]
      exact hcon
    · rw [gainXP_party]
      exact hfull
    · apply poolFree_of_captured
      rw [gainXP_captured]
      exact hcon

/-- Witness for C5: with a full party of six, capturing the Stack
Spirit with a guaranteed-success draw of 0 succeeds, marks the id
captured and pool-excluded, and keeps the party at six. -/
theorem party_cap_preserved_w :
    partySix.party.length = 6
    ∧ (captureAgent partySix stackSpirit 0).1 = true
    ∧ (captureAgent partySix stackSpirit 0).2.1.agents_captured.contains stackSpirit.id = true
    ∧ (captureAgent partySix stackSpirit 0).2.1.party.length = 6
    ∧ poolFree (captureAgent partySix stackSpirit 0).2.1 stackSpirit.id = true := by
  have h := (party_cap_preserved partySix stackSpirit 0 "" 0 (by decide)).2.2.2
    (by decide) (le_trans (by norm_num) (le_max_left _ _))
  exact ⟨by decide, h.1, h.2.1, h.2.2.1, h.2.2.2⟩

/-- C6: when every encounter id of the current zone is already captured,
`triggerEncounter` returns the absent value and emits no event; the
`Option` result type makes this an ordinary outcome rather than an
error. -/
theorem triggerEncounter_exhausted (p : PlayerState) (encId : Option String)
    (k : Nat) (z : Zone) (hz : getCurrentZone p = some z)
    (hall : ∀ e ∈ z.encounters, p.agents_captured.contains e.id = true) :
    triggerEncounter p encId k = (none, []) := by
  unfold triggerEncounter
  rw [hz]
  have hnil : eligiblePool p z = [] := by
    unfold eligiblePool
    rw [List.filter_eq_nil_iff]
    intro e he
    rw [hall e he]
    decide
  dsimp only
  rw [hnil]

/-- Witness for C6: after capturing all three Recursion Depths
encounters, the next `triggerEncounter` there returns the absent value
with no event. -/
theorem triggerEncounter_exhausted_w :
    triggerEncounter
      { initialPlayer with
        agents_captured := ["paradox-daemon", "stack-spirit", "lucidia-sentinel"] }
      none 0 = (none, []) :=
  triggerEncounter_exhausted
    { initialPlayer with
      agents_captured := ["paradox-daemon", "stack-spirit", "lucidia-sentinel"] }
    none 0 recursionDepths (by decide) (by decide)

/-- C7, counterexample: the supplied encounter id may be the empty
string, which matches no template; the claim then demands the first
eligible entry (the Paradox Daemon), but the source treats the empty
string as falsy and follows the random path, here returning the second
eligible entry (the Stack Spirit) for random index 1. -/
theorem triggerEncounter_empty_id_cex :
    eligiblePool initialPlayer recursionDepths
      = [paradoxDaemon, stackSpirit, lucidiaSentinel]
    ∧ (triggerEncounter initialPlayer (some "") 1).1 = some stackSpirit
    ∧ stackSpirit ≠ paradoxDaemon := by
  decide

/-- C7, amended: with a non-empty eligible pool, a supplied truthy
(non-empty) id that matches a template of the full template list — even
an already-captured one — selects that template; a supplied truthy id
matching no template selects the first eligible entry; a falsy id
(absent or the empty string) selects the eligible entry at the injected
uniform random index. -/
theorem triggerEncounter_selection (p : PlayerState) (z : Zone)
    (encId : Option String) (k : Nat) (e0 : Encounter) (rest : List Encounter)
    (hz : getCurrentZone p = some z)
    (hpool : eligiblePool p z = e0 :: rest) :
    (∀ t, strTruthy encId = true →
      z.encounters.find? (fun e => e.id == encId.getD "") = some t →
      triggerEncounter p encId k = (some t, [GameEvent.encounter t]))
    ∧ (strTruthy encId = true →
      z.encounters.find? (fun e => e.id == encId.getD "") = none →
      triggerEncounter p encId k = (some e0, [GameEvent.encounter e0]))
    ∧ (strTruthy encId = false → ∀ hk : k < (e0 :: rest).length,
      triggerEncounter p encId k
        = (some ((e0 :: rest).get ⟨k, hk⟩),
           [GameEvent.encounter ((e0 :: rest).get ⟨k, hk⟩)])) := by
  refine ⟨?_, ?_, ?_⟩
  · intro t htr hfind
    unfold triggerEncounter
    rw [hz]
    dsimp only
    rw [hpool]
    dsimp only
    rw [htr, hfind]
    simp
  · intro htr hfind
    unfold triggerEncounter
    rw [hz]
    dsimp only
    rw [hpool]
    dsimp only
    rw [htr, hfind]
    simp
  · intro htr hk
    unfold triggerEncounter
    rw [hz]
    dsimp only
    rw [hpool]
    dsimp only
    rw [htr]
    simp [List.getD, List.getElem?_eq_getElem hk, List.get_eq_getElem]

/-- Player who has already captured the Paradox Daemon, used to
exercise encounter selection. -/
def capturedOne : PlayerState :=
  { initialPlayer with agents_captured := ["paradox-daemon"] }

/-- Witness for the amended C7: with the Paradox Daemon already
captured (eligible pool = Stack Spirit, Lucidia Sentinel), supplying its
id still selects it; supplying an unknown id selects the first eligible
entry; supplying no id with random index 1 selects the second eligible
entry. -/
theorem triggerEncounter_selection_w :
    triggerEncounter capturedOne (some ("paradox-daemon")) 0
      = (some paradoxDaemon, [GameEvent.encounter paradoxDaemon])
    ∧ triggerEncounter capturedOne (some ("missing-id")) 0
      = (some stackSpirit, [GameEvent.encounter stackSpirit])
    ∧ triggerEncounter capturedOne none 1
      = (some lucidiaSentinel, [GameEvent.encounter lucidiaSentinel]) := by
  refine ⟨?_, ?_, ?_⟩
  · exact (triggerEncounter_selection capturedOne recursionDepths
      (some ("paradox-daemon")) 0 stackSpirit [lucidiaSentinel]
      (by decide) (by decide)).1 paradoxDaemon (by decide) (by decide)
  · exact (triggerEncounter_selection capturedOne recursionDepths
      (some ("missing-id")) 0 stackSpirit [lucidiaSentinel]
      (by decide) (by decide)).2.1 (by decide) (by decide)
  · exact (triggerEncounter_selection capturedOne recursionDepths
      none 1 stackSpirit [lucidiaSentinel]
      (by decide) (by decide)).2.2 (by decide) (by decide)

/-- Helper: the unsubscribe closure is idempotent on the field. -/
lemma unsubscribeFn_idem (self : Nat) (field : List Nat) :
    unsubscribeFn self (unsubscribeFn self field) = unsubscribeFn self field := by
  unfold unsubscribeFn
  rw [List.filter_filter]
  simp

/-- Helper: folding the self-unsubscribing behaviour over any snapshot
removes `self` from the field exactly when `self` occurs in the
snapshot, and leaves the field alone otherwise. -/
lemma selfUnsubAct_foldl (self : Nat) : ∀ (ls acc : List Nat),
    ls.foldl (fun f l => selfUnsubAct self l f) acc
      = if ls.contains self then unsubscribeFn self acc else acc := by
  intro ls
  induction ls with
  | nil => intro acc; simp
  | cons a t ih =>
    intro acc
    rw [List.foldl_cons]
    by_cases h : a = self
    · subst h
      have hstep : selfUnsubAct a a acc = unsubscribeFn a acc := by
        unfold selfUnsubAct
        simp
      rw [hstep, ih]
      have hc : (a :: t).contains a = true := by simp
      rw [hc]
      by_cases h2 : t.contains a = true
      · rw [if_pos h2, if_pos rfl, unsubscribeFn_idem]
      · rw [if_neg h2, if_pos rfl]
    · have hstep : selfUnsubAct self a acc = acc := by
        unfold selfUnsubAct
        simp [h]
      rw [hstep, ih]
      have hb : (self == a) = false := by
        simpa using Ne.symm h
      have hc : (a :: t).contains self = t.contains self := by
        rw [List.contains_cons, hb]
        simp
      rw [hc]

/-- C8: dispatching an event to a snapshot in which some listener
unsubscribes itself during its own notification is total (no error),
delivers the event to every listener of the snapshot — in particular to
every listener registered before the self-unsubscriber — and afterwards
leaves the field equal to the snapshot with that listener filtered
out. -/
theorem emit_unsubscribe_safe (ls : List Nat) (self : Nat) (hself : self ∈ ls) :
    emitDispatch (selfUnsubAct self) ls = (ls, unsubscribeFn self ls) := by
  unfold emitDispatch
  rw [selfUnsubAct_foldl]
  have hc : ls.contains self = true := by
    simpa using hself
  rw [hc]
  simp

/-- Witness for C8: listener 1 of the snapshot 0, 1, 2 unsubscribes
itself during dispatch; all three listeners are notified and the final
field is 0, 2. -/
theorem emit_unsubscribe_safe_w :
    emitDispatch (selfUnsubAct 1) [0, 1, 2] = ([0, 1, 2], [0, 2]) :=
  emit_unsubscribe_safe [0, 1, 2] 1 (by decide)

/-- Helper: the events emitted by `gainXP` are a level-up exactly when
the new xp total reaches the current threshold. -/
lemma gainXP_events (q : PlayerState) (amount : Int) :
    (gainXP q amount).2
      = if q.xp + amount ≥ q.level * 100
        then [GameEvent.level_up (q.level + 1)] else [] := by
  by_cases hcond : q.xp + amount ≥ q.level * 100 <;> simp [gainXP, hcond]

/-- Helper: whenever `triggerEncounter` selects a template, it emits
exactly one `encounter` event carrying that template. -/
lemma trigger_events (p : PlayerState) (encId : Option String) (k : Nat)
    (t : Encounter) (h : (triggerEncounter p encId k).1 = some t) :
    triggerEncounter p encId k = (some t, [GameEvent.encounter t]) := by
  unfold triggerEncounter at h ⊢
  cases hz : getCurrentZone p with
  | none =>
    rw [hz] at h
    simp at h
  | some z =>
    rw [hz] at h
    dsimp only at h ⊢
    cases hp : eligiblePool p z with
    | nil =>
      rw [hp] at h
      simp at h
    | cons e0 rest =>
      rw [hp] at h
      dsimp only at h ⊢
      obtain rfl := Option.some.inj h
      rfl

/-- C9: from any state, a succeeding `enterZone`, then a
`triggerEncounter` selecting template `t`, then a `captureAgent` on `t`
with a guaranteed-success draw emit exactly the sequence zone-enter,
encounter, capture — followed by a level-up exactly when the XP
threshold is crossed — whose payloads are the resolved zone, the
selected template, and the captured agent built from `t` with
`hp = max_hp = t.level * 15`. -/
theorem event_fidelity (p : PlayerState) (zid : String) (z : Zone)
    (encId : Option String) (k : Nat) (t : Encounter) (draw : ℚ)
    (hz : ZONES.find? (fun zz => zz.id == zid) = some z)
    (hlev : ¬ p.level < z.requiredLevel)
    (ht : (triggerEncounter (enterZone p zid).2.1 encId k).1 = some t)
    (hdraw : draw ≤ clampChance (captureChance (enterZone p zid).2.1.level t.level)) :
    (enterZone p zid).1 = true
    ∧ (enterZone p zid).2.2
        ++ (triggerEncounter (enterZone p zid).2.1 encId k).2
        ++ (captureAgent (enterZone p zid).2.1 t draw).2.2
      = [GameEvent.zone_enter z, GameEvent.encounter t,
         GameEvent.capture (mkCaptured t)]
        ++ (if (enterZone p zid).2.1.xp + t.xp_reward ≥ (enterZone p zid).2.1.level * 100
            then [GameEvent.level_up ((enterZone p zid).2.1.level + 1)] else [])
    ∧ (mkCaptured t).hp = t.level * 15
    ∧ (mkCaptured t).max_hp = t.level * 15 := by
  have he : enterZone p zid
      = (true, { p with current_zone := zid }, [GameEvent.zone_enter z]) := by
    unfold enterZone
    rw [hz]
    dsimp only
    rw [if_neg hlev]
  rw [he] at ht hdraw ⊢
  dsimp only at ht hdraw ⊢
  refine ⟨rfl, ?_, rfl, rfl⟩
  rw [trigger_events _ encId k t ht]
  dsimp only
  have hng := not_lt.mpr hdraw
  unfold captureAgent
  rw [if_neg hng]
  dsimp only
  by_cases hp6 : p.party.length < 6
  · rw [if_pos hp6, gainXP_events]
    simp
  · rw [if_neg hp6, gainXP_events]
    simp

/-- Witness for C9: the fresh player enters the Recursion Depths,
triggers the first eligible encounter (the Paradox Daemon) and captures
it with a draw of 0; no threshold is crossed, so the trace is exactly
zone-enter, encounter, capture. -/
theorem event_fidelity_w :
    (enterZone initialPlayer ("recursion-depths")).1 = true
    ∧ (enterZone initialPlayer ("recursion-depths")).2.2
        ++ (triggerEncounter (enterZone initialPlayer ("recursion-depths")).2.1 none 0).2
        ++ (captureAgent (enterZone initialPlayer ("recursion-depths")).2.1 paradoxDaemon 0).2.2
      = [GameEvent.zone_enter recursionDepths, GameEvent.encounter paradoxDaemon,
         GameEvent.capture (mkCaptured paradoxDaemon)]
    ∧ (mkCaptured paradoxDaemon).hp = paradoxDaemon.level * 15
    ∧ (mkCaptured paradoxDaemon).max_hp = paradoxDaemon.level * 15 := by
  have h := event_fidelity initialPlayer ("recursion-depths") recursionDepths
    none 0 paradoxDaemon 0 (by decide) (by decide) (by decide)
    (le_trans (by norm_num) (le_max_left _ _))
  exact ⟨h.1, by rw [h.2.1]; rfl, h.2.2.1, h.2.2.2⟩

/-- C10: for every constructor argument, the freshly constructed engine
has the same initial player state — level 1, xp 0, no captured ids, an
empty party, position at the origin and current zone
`recursion-depths`, which resolves to a catalog zone — so the
`playerName` argument has no effect on any observable behaviour. -/
theorem constructor_initial_state :
    (∀ playerName : String, mkGameLoop playerName = initialPlayer)
    ∧ initialPlayer.level = 1 ∧ initialPlayer.xp = 0
    ∧ initialPlayer.agents_captured = [] ∧ initialPlayer.party = []
    ∧ initialPlayer.position = (0, 0, 0)
    ∧ initialPlayer.current_zone = "recursion-depths"
    ∧ getCurrentZone initialPlayer = some recursionDepths :=
  ⟨fun _ => rfl, rfl, rfl, rfl, rfl, rfl, rfl, by decide⟩

end InteractiveCore
